import Mathlib

/-!
# esp-restful-server: `main/rest_server.c`

A shallow embedding of the request handlers of `rest_server.c`.

* C strings are `List Char` (the characters before the terminating NUL);
  a `char *` that may be `NULL` is an `Option (List Char)`.
* Calls into the HTTP server, the file system, cJSON and the GPIO driver are
  recorded as a trace of `Event`s, in program order.  What those calls return
  is supplied by an environment (`FileEnv`, `PostEnv`, or a plain argument).
* A handler yields an `Outcome`: it returned an `esp_err_t`, or it reached an
  operation whose behaviour the C language leaves undefined, or the loop
  budget given to the model ran out.
* `ESP_LOGx` calls have no effect on the request and are left out.
-/

namespace RestServer

/-! ## Constants and basic types -/

/-- The macro `SCRATCH_BUFSIZE`: `#define SCRATCH_BUFSIZE (10240)`. -/
def SCRATCH_BUFSIZE : Nat := 10240

/-- The macro `FILE_PATH_MAX`: `(ESP_VFS_PATH_MAX + 128)`; `ESP_VFS_PATH_MAX` comes
from the ESP-IDF header `esp_vfs.h` and is taken as a parameter. -/
def FILE_PATH_MAX (ESP_VFS_PATH_MAX : Nat) : Nat := ESP_VFS_PATH_MAX + 128

/-- The two `esp_err_t` values the handlers return. -/
inductive esp_err_t where
  | ESP_OK
  | ESP_FAIL
  deriving DecidableEq

/-- The `httpd_err_code_t` values passed to `httpd_resp_send_err`. -/
inductive httpd_err_code_t where
  | HTTPD_500_INTERNAL_SERVER_ERROR
  | HTTPD_400_BAD_REQUEST
  | HTTPD_404_NOT_FOUND
  deriving DecidableEq

/-- The numeric HTTP status of an `httpd_err_code_t`. -/
def httpd_err_code_t.status : httpd_err_code_t → Nat
  | .HTTPD_500_INTERNAL_SERVER_ERROR => 500
  | .HTTPD_400_BAD_REQUEST => 400
  | .HTTPD_404_NOT_FOUND => 404

/-- The pin `GPIO_NUM_16` of the ESP-IDF enum `gpio_num_t` (`driver/gpio.h`), where
`GPIO_NUM_n = n`. -/
def GPIO_NUM_16 : Nat := 16
/-- The pin `GPIO_NUM_17` of `gpio_num_t`. -/
def GPIO_NUM_17 : Nat := 17
/-- The pin `GPIO_NUM_18` of `gpio_num_t`. -/
def GPIO_NUM_18 : Nat := 18
/-- The pin `GPIO_NUM_19` of `gpio_num_t`. -/
def GPIO_NUM_19 : Nat := 19

/-- The limit `INT_MAX` of the 32-bit `int` (and `long`) of the ESP32 targets. -/
def INT_MAX : Int := 2147483647
/-- The limit `INT_MIN` of the 32-bit `int`. -/
def INT_MIN : Int := -2147483648

/-- Calls a handler makes to its collaborators, in program order. -/
inductive Event where
  /-- the call `open(filepath, O_RDONLY, 0)` -/
  | open (filepath : List Char)
  /-- the call `httpd_resp_set_type(req, type)` -/
  | set_type (type : String)
  /-- the call `read(fd, chunk, SCRATCH_BUFSIZE)` with the value it returned -/
  | read (count : Nat) (ret : Int)
  /-- the call `httpd_resp_send_chunk(req, chunk, read_bytes)` with `read_bytes > 0` -/
  | send_chunk (data : List Nat)
  /-- the call `httpd_resp_send_chunk(req, NULL, 0)` or `httpd_resp_sendstr_chunk(req, NULL)`:
  the zero-length chunk that ends a chunked response -/
  | send_chunk_end
  /-- the call `close(fd)` -/
  | close
  /-- the call `httpd_resp_send_err(req, code, msg)` -/
  | send_err (code : httpd_err_code_t) (msg : String)
  /-- the call `httpd_resp_sendstr(req, str)` -/
  | sendstr (str : String)
  /-- the call `httpd_req_recv(req, buf + offset, buf_len)` with the value it returned -/
  | recv (offset : Int) (buf_len : Int) (ret : Int)
  /-- the store `buf[index] = 0` -/
  | store_nul (index : Int)
  /-- the call `cJSON_Parse(buf)` -/
  | cJSON_Parse
  /-- the call `cJSON_GetObjectItem(root, name)->valueint` on an item that exists -/
  | valueint (name : String) (value : Int)
  /-- the call `cJSON_Delete(root)` -/
  | cJSON_Delete
  /-- the call `httpd_req_get_url_query_str(req, query, sizeof(query))` -/
  | get_url_query_str
  /-- the call `gpio_set_level(gpio_num, level)` -/
  | gpio_set_level (gpio_num : Nat) (level : Int)
  deriving DecidableEq

/-- How a run of a handler ends. -/
inductive Outcome where
  /-- the handler returned `ret` after the calls in `trace` -/
  | returned (ret : esp_err_t) (trace : List Event)
  /-- after the calls in `trace` the handler executed an operation with
  undefined behaviour (an access outside an object, a null dereference) -/
  | undefined (trace : List Event)
  /-- the loop budget of the model was used up after the calls in `trace` -/
  | out_of_fuel (trace : List Event)
  deriving DecidableEq

/-- Puts the events `es` in front of the trace of an outcome. -/
def Outcome.after (es : List Event) : Outcome → Outcome
  | .returned r t => .returned r (es ++ t)
  | .undefined t => .undefined (es ++ t)
  | .out_of_fuel t => .out_of_fuel (es ++ t)

/-! ## C library functions used by the handlers -/

/-- The C function `isspace` in the C locale. -/
def isspace (c : Char) : Bool :=
  c.toNat = 32 || (9 ≤ c.toNat && c.toNat ≤ 13)

/-- Value of a run of decimal digits. -/
def decimal_value (ds : List Char) : Nat :=
  ds.foldl (fun acc c => 10 * acc + (c.toNat - 48)) 0

/-- The `long` that `strtol` yields for a sign and a magnitude: the value
itself when it fits, else `LONG_MAX` or `LONG_MIN` (32 bits wide here). -/
def saturate (neg : Bool) (mag : Nat) : Int :=
  if neg then max (-(mag : Int)) INT_MIN else min (mag : Int) INT_MAX

/-- Splits an optional sign off the front of a string. -/
def split_sign : List Char → Bool × List Char
  | '-' :: cs => (true, cs)
  | '+' :: cs => (false, cs)
  | cs => (false, cs)

/-- The C function `atoi(s)`, that is `(int) strtol(s, NULL, 10)`: white space
is skipped, an optional sign is read, then the longest run of decimal digits;
no digits give 0. -/
def atoi (s : List Char) : Int :=
  let (neg, ds) := split_sign (s.dropWhile isspace)
  saturate neg (decimal_value (ds.takeWhile Char.isDigit))

/-- The call `strchr(s, c)` followed by `+ 1`: the text after the first `c`, or
`none` when `strchr` returns `NULL`. -/
def after_first (c : Char) : List Char → Option (List Char)
  | [] => none
  | x :: xs => if x = c then some xs else after_first c xs

/-- Result of matching the literal part of a `scanf` format. -/
inductive ScanLiteral where
  | matched (rest : List Char)
  | mismatch
  | input_end
  deriving DecidableEq

/-- Matches the ordinary characters `fmt` of a `scanf` format against the input. -/
def scan_literal : List Char → List Char → ScanLiteral
  | [], input => .matched input
  | _ :: _, [] => .input_end
  | f :: fs, c :: cs => if f = c then scan_literal fs cs else .mismatch

/-- The call `sscanf(uri, "/api/v1/relays/%d/", &relay_id)`: the returned count
(`EOF` is `-1`) and the value of `relay_id` afterwards.  The literal text must
match character by character; `%d` skips white space, reads an optional sign
and the longest run of digits, and fails when there is no digit; a value
outside `int` is stored as `strtol` saturates it.  The `/` after `%d` cannot
change the count any more. -/
def sscanf_relay_id (uri : List Char) (relay_id : Int) : Int × Int :=
  match scan_literal "/api/v1/relays/".toList uri with
  | .input_end => (-1, relay_id)
  | .mismatch => (0, relay_id)
  | .matched rest =>
    match rest.dropWhile isspace with
    | [] => (-1, relay_id)
    | c :: cs =>
      let (neg, ds) := split_sign (c :: cs)
      let digits := ds.takeWhile Char.isDigit
      if digits = [] then (0, relay_id) else (1, saturate neg (decimal_value digits))

/-! ## `get_status_from_query` and `relays_set_handler` -/

/-- The function `get_status_from_query`: `none` is the `NULL` pointer. -/
def get_status_from_query (query : Option (List Char)) : Int :=
  match query with
  | none => -1
  | some q =>
    match after_first '=' q with
    | none => -1
    | some value =>
      let val := atoi value
      if val = 0 ∨ val = 1 then val else -1

/-- The handler `relays_set_handler`.  `query_str` is what
`httpd_req_get_url_query_str` does when called: `some q` when it returns
`ESP_OK` and stores `q`, `none` when it returns an error. -/
def relays_set_handler (uri : List Char) (query_str : Option (List Char)) : Outcome :=
  let relay_id : Int := -1
  let scanned := sscanf_relay_id uri relay_id
  if scanned.1 = 1 then
    let relay_id := scanned.2
    let status : Int :=
      match query_str with
      | some query => get_status_from_query (some query)
      | none => -1
    if status = -1 then
      .returned .ESP_FAIL
        [.get_url_query_str,
         .send_err .HTTPD_400_BAD_REQUEST
           "relays_set_handler: missing or invalid status parameter"]
    else if relay_id = 0 then
      .returned .ESP_OK
        [.get_url_query_str, .gpio_set_level GPIO_NUM_16 status,
         .sendstr "Post control value successfully"]
    else if relay_id = 1 then
      .returned .ESP_OK
        [.get_url_query_str, .gpio_set_level GPIO_NUM_17 status,
         .sendstr "Post control value successfully"]
    else if relay_id = 2 then
      .returned .ESP_OK
        [.get_url_query_str, .gpio_set_level GPIO_NUM_18 status,
         .sendstr "Post control value successfully"]
    else if relay_id = 3 then
      .returned .ESP_OK
        [.get_url_query_str, .gpio_set_level GPIO_NUM_19 status,
         .sendstr "Post control value successfully"]
    else
      .returned .ESP_FAIL
        [.get_url_query_str, .send_err .HTTPD_404_NOT_FOUND "relay not found"]
  else
    .returned .ESP_FAIL [.send_err .HTTPD_400_BAD_REQUEST "Invalid relay ID in URI"]

/-- The `gpio_set_level` calls of a trace, as (pin, level) pairs. -/
def gpio_calls : List Event → List (Nat × Int)
  | [] => []
  | .gpio_set_level p l :: es => (p, l) :: gpio_calls es
  | _ :: es => gpio_calls es

/-! ## `set_content_type_from_file` -/

/-- The macro `CHECK_FILE_EXTENSION(filename, ext)`:
`strcasecmp(&filename[strlen(filename) - strlen(ext)], ext) == 0`.
The subtraction is on `size_t`; when `filename` is shorter than `ext` it wraps
and the address lies before the start of `filename`, so the comparison reads
outside the string: `none`. -/
def CHECK_FILE_EXTENSION (filename ext : List Char) : Option Bool :=
  if filename.length < ext.length then none
  else some ((filename.drop (filename.length - ext.length)).map Char.toLower
              == ext.map Char.toLower)

/-- The function `set_content_type_from_file`: the type handed to `httpd_resp_set_type`, or
`none` when one of the extension tests that are executed reads outside
`filepath`. -/
def set_content_type_from_file (filepath : List Char) : Option String :=
  match CHECK_FILE_EXTENSION filepath ".html".toList with
  | none => none
  | some true => some "text/html"
  | some false =>
  match CHECK_FILE_EXTENSION filepath ".js".toList with
  | none => none
  | some true => some "application/javascript"
  | some false =>
  match CHECK_FILE_EXTENSION filepath ".css".toList with
  | none => none
  | some true => some "text/css"
  | some false =>
  match CHECK_FILE_EXTENSION filepath ".png".toList with
  | none => none
  | some true => some "image/png"
  | some false =>
  match CHECK_FILE_EXTENSION filepath ".ico".toList with
  | none => none
  | some true => some "image/x-icon"
  | some false =>
  match CHECK_FILE_EXTENSION filepath ".svg".toList with
  | none => none
  | some true => some "text/xml"
  | some false => some "text/plain"

/-! ## `rest_common_get_handler` -/

/-- The call `strlcpy(dst, src, size)`: the content of `dst` afterwards. -/
def strlcpy (src : List Char) (size : Nat) : List Char :=
  src.take (size - 1)

/-- The call `strlcat(dst, src, size)`: the content of `dst` afterwards. -/
def strlcat (dst src : List Char) (size : Nat) : List Char :=
  dst ++ src.take (size - dst.length - 1)

/-- Lines 63-71 of `rest_common_get_handler`: the path handed to `open`.
`req->uri[strlen(req->uri) - 1]` reads before the array when the URI is
empty: `none`. -/
def resolve_filepath (ESP_VFS_PATH_MAX : Nat) (base_path uri : List Char) :
    Option (List Char) :=
  let filepath := strlcpy base_path (FILE_PATH_MAX ESP_VFS_PATH_MAX)
  match uri.getLast? with
  | none => none
  | some last =>
    if last = '/' then
      some (strlcat filepath "/index.html".toList (FILE_PATH_MAX ESP_VFS_PATH_MAX))
    else
      some (strlcat filepath uri (FILE_PATH_MAX ESP_VFS_PATH_MAX))

/-- What the file system and the HTTP server answer to `rest_common_get_handler`. -/
structure FileEnv where
  /-- whether `open(filepath, O_RDONLY, 0)` yields a descriptor (`false`: it returns -1) -/
  open_ok : List Char → Bool
  /-- the `k`-th `read(fd, chunk, SCRATCH_BUFSIZE)`: `none` when it returns -1,
  else the bytes it stored in `chunk` (it returns their number) -/
  read : Nat → Option (List Nat)
  /-- whether the `k`-th `httpd_resp_send_chunk` with data returns `ESP_OK` -/
  send_chunk : Nat → Bool

/-- Lines 82-107: the `do ... while (read_bytes > 0)` loop from its `k`-th
iteration on, and what follows it.  One unit of `fuel` is one iteration. -/
def send_file (env : FileEnv) : Nat → Nat → Outcome
  | 0, _ => .out_of_fuel []
  | fuel + 1, k =>
    match env.read k with
    | none =>
      .returned .ESP_OK [.read SCRATCH_BUFSIZE (-1), .close, .send_chunk_end]
    | some data =>
      if 0 < data.length then
        if env.send_chunk k then
          (send_file env fuel (k + 1)).after
            [.read SCRATCH_BUFSIZE data.length, .send_chunk data]
        else
          .returned .ESP_FAIL
            [.read SCRATCH_BUFSIZE data.length, .send_chunk data, .close, .send_chunk_end,
             .send_err .HTTPD_500_INTERNAL_SERVER_ERROR "Failed to send file"]
      else
        .returned .ESP_OK [.read SCRATCH_BUFSIZE 0, .close, .send_chunk_end]

/-- The handler `rest_common_get_handler` for a request with URI `uri` on a context whose
base path is `base_path`. -/
def rest_common_get_handler (ESP_VFS_PATH_MAX : Nat) (env : FileEnv)
    (base_path uri : List Char) (fuel : Nat) : Outcome :=
  match resolve_filepath ESP_VFS_PATH_MAX base_path uri with
  | none => .undefined []
  | some filepath =>
    if env.open_ok filepath then
      match set_content_type_from_file filepath with
      | none => .undefined [.open filepath]
      | some type => (send_file env fuel 0).after [.open filepath, .set_type type]
    else
      .returned .ESP_FAIL
        [.open filepath,
         .send_err .HTTPD_500_INTERNAL_SERVER_ERROR "Failed to read existing file"]

/-! ## `light_brightness_post_handler` -/

/-- Conversion of a `size_t` to the 32-bit `int` (`int total_len = req->content_len`). -/
def int_of_size_t (n : Nat) : Int :=
  if n % 4294967296 < 2147483648 then (n % 4294967296 : Nat)
  else ((n % 4294967296 : Nat) : Int) - 4294967296

/-- What the HTTP server and cJSON answer to `light_brightness_post_handler`. -/
structure PostEnv where
  /-- the call `req->content_len` -/
  content_len : Nat
  /-- the value returned by the `k`-th `httpd_req_recv` call; a positive value
  is the number of bytes stored at the address passed -/
  recv : Nat → Int
  /-- the call `cJSON_Parse(buf)`: `none` for `NULL`, else for each name the `valueint`
  of the item `cJSON_GetObjectItem` finds, or `none` when it finds no item -/
  root : Option (String → Option Int)

/-- The call `cJSON_GetObjectItem(root, name)`: the `valueint` of the item, `none` for `NULL`
(also when `root` is `NULL`). -/
def cJSON_GetObjectItem (root : Option (String → Option Int)) (name : String) :
    Option Int :=
  match root with
  | none => none
  | some items => items name

/-- Lines 131-140: terminate the buffer, parse it, read the three fields,
acknowledge.  The store `buf[total_len] = 0` lies outside `scratch` when
`total_len` is negative (a `content_len` of 2^31 or more converted to `int`)
or not below `SCRATCH_BUFSIZE`; `->valueint` on a `NULL` item is a null
dereference. -/
def light_brightness_decode (env : PostEnv) (total_len : Int) : Outcome :=
  if total_len < 0 ∨ (SCRATCH_BUFSIZE : Int) ≤ total_len then .undefined []
  else
  match cJSON_GetObjectItem env.root "red" with
  | none => .undefined [.store_nul total_len, .cJSON_Parse]
  | some red =>
  match cJSON_GetObjectItem env.root "green" with
  | none => .undefined [.store_nul total_len, .cJSON_Parse, .valueint "red" red]
  | some green =>
  match cJSON_GetObjectItem env.root "blue" with
  | none =>
    .undefined [.store_nul total_len, .cJSON_Parse, .valueint "red" red,
                .valueint "green" green]
  | some blue =>
    .returned .ESP_OK
      [.store_nul total_len, .cJSON_Parse, .valueint "red" red, .valueint "green" green,
       .valueint "blue" blue, .cJSON_Delete, .sendstr "Post control value successfully"]

/-- Lines 122-130: the `while (cur_len < total_len)` loop from its `k`-th
`httpd_req_recv` call on, followed by the rest of the handler.  One unit of
`fuel` is one iteration.  `cur_len + received` does not leave the range of
`int` when `httpd_req_recv` returns at most the length it was given. -/
def recv_loop (env : PostEnv) (total_len : Int) : Nat → Nat → Int → Outcome
  | 0, _, cur_len =>
    if cur_len < total_len then .out_of_fuel [] else light_brightness_decode env total_len
  | fuel + 1, k, cur_len =>
    if cur_len < total_len then
      let received := env.recv k
      if received ≤ 0 then
        .returned .ESP_FAIL
          [.recv cur_len total_len received,
           .send_err .HTTPD_500_INTERNAL_SERVER_ERROR "Failed to post control value"]
      else
        (recv_loop env total_len fuel (k + 1) (cur_len + received)).after
          [.recv cur_len total_len received]
    else light_brightness_decode env total_len

/-- The handler `light_brightness_post_handler`. -/
def light_brightness_post_handler (env : PostEnv) (fuel : Nat) : Outcome :=
  let total_len := int_of_size_t env.content_len
  if total_len ≥ (SCRATCH_BUFSIZE : Int) then
    .returned .ESP_FAIL
      [.send_err .HTTPD_500_INTERNAL_SERVER_ERROR "content too long"]
  else
    recv_loop env total_len fuel 0 0

/-! ## Observations on traces -/

/-- The calls made in a run. -/
def Outcome.trace : Outcome → List Event
  | .returned _ t => t
  | .undefined t => t
  | .out_of_fuel t => t

/-- The paths handed to `open`, in order. -/
def opened_paths : List Event → List (List Char)
  | [] => []
  | .open f :: es => f :: opened_paths es
  | _ :: es => opened_paths es

/-- The data chunks sent, in order. -/
def data_chunks : List Event → List (List Nat)
  | [] => []
  | .send_chunk d :: es => d :: data_chunks es
  | _ :: es => data_chunks es

/-- The HTTP statuses of the error responses sent, in order. -/
def error_statuses : List Event → List Nat
  | [] => []
  | .send_err c _ :: es => c.status :: error_statuses es
  | _ :: es => error_statuses es

/-- Holds for the `read` calls and the data chunks. -/
def Event.is_read_or_data : Event → Bool
  | .read _ _ => true
  | .send_chunk _ => true
  | _ => false

/-! ## Well-behaved storage -/

/-- Number of bytes the first `k` calls of `read` delivered. -/
def bytes_read (read : Nat → Option (List Nat)) : Nat → Nat
  | 0 => 0
  | k + 1 =>
    bytes_read read k +
      (match read k with
       | some data => data.length
       | none => 0)

/-- The storage serves the file `content`: every `read` succeeds and delivers
the next unread bytes, between 1 and `SCRATCH_BUFSIZE` of them while some are
left and none once the end is reached. -/
def Serves (content : List Nat) (read : Nat → Option (List Nat)) : Prop :=
  ∀ k, ∃ data, read k = some data ∧
    data = (content.drop (bytes_read read k)).take data.length ∧
    (bytes_read read k < content.length → 1 ≤ data.length ∧ data.length ≤ SCRATCH_BUFSIZE) ∧
    (content.length ≤ bytes_read read k → data = [])

/-- A body whose declared length, 2^31, is negative as an `int`. -/
def negative_length_env : PostEnv where
  content_len := 2147483648
  recv := fun _ => 1
  root := some fun _ => some 0

/-- A two-byte body that parses to an object without fields. -/
def empty_object_env : PostEnv where
  content_len := 2
  recv := fun _ => 2
  root := some fun _ => none

/-- A two-byte body that does not parse. -/
def unparsable_env : PostEnv where
  content_len := 2
  recv := fun _ => 2
  root := none

/-- A file system without files. -/
def no_file_env : FileEnv where
  open_ok := fun _ => false
  read := fun _ => none
  send_chunk := fun _ => true

/-- A file system in which every file exists and holds the bytes 1, 2, 3, which
the first `read` delivers at once. -/
def three_byte_file_env : FileEnv where
  open_ok := fun _ => true
  read := fun k => if k = 0 then some [1, 2, 3] else some []
  send_chunk := fun _ => true

/-- A file system in which every file exists and holds data, and a transport
that accepts no chunk. -/
def send_failure_env : FileEnv where
  open_ok := fun _ => true
  read := fun _ => some [1, 2, 3]
  send_chunk := fun _ => false

/-- A file system in which every file exists and is empty. -/
def empty_file_env : FileEnv where
  open_ok := fun _ => true
  read := fun _ => some []
  send_chunk := fun _ => true

/-! ## Evaluations: `get_status_from_query`, JSON fields, short paths -/

/-- C2 (the code departs from the claim): `get_status_from_query` returns 0 for
the query `status=x`, whose value is not the literal `0`, because `atoi` yields
0 for text without digits; `relays_set_handler` then drives the relay low and
acknowledges instead of answering 400.  The other examples of the claim
evaluate as it says. -/
theorem get_status_from_query_non_numeric :
    get_status_from_query (some "status=x".toList) = 0 ∧
    relays_set_handler "/api/v1/relays/0/".toList (some "status=x".toList)
      = .returned .ESP_OK
          [.get_url_query_str, .gpio_set_level GPIO_NUM_16 0,
           .sendstr "Post control value successfully"] ∧
    get_status_from_query (some "status=0".toList) = 0 ∧
    get_status_from_query (some "status=1".toList) = 1 ∧
    get_status_from_query (some "status=2".toList) = -1 ∧
    get_status_from_query (some "status".toList) = -1 ∧
    get_status_from_query (some []) = -1 := by
  decide

/-- C5 (the code departs from the claim): for a body that parses to an object
without a `red` field, and for a body that does not parse,
`light_brightness_post_handler` reads `valueint` through the `NULL` that
`cJSON_GetObjectItem` returned; no error response is sent. -/
theorem light_brightness_post_handler_absent_field :
    light_brightness_post_handler empty_object_env 1
      = .undefined [.recv 0 2 2, .store_nul 2, .cJSON_Parse] ∧
    light_brightness_post_handler unparsable_env 1
      = .undefined [.recv 0 2 2, .store_nul 2, .cJSON_Parse] ∧
    error_statuses (light_brightness_post_handler empty_object_env 1).trace = [] := by
  decide

/-- C10 (the code departs from the claim): for the path `/a`, shorter than
`.html`, the first extension test of `set_content_type_from_file` compares
from an address before the start of the path.  `rest_common_get_handler`
reaches it with an empty base path and the URI `/a`. -/
theorem set_content_type_from_file_short_path :
    CHECK_FILE_EXTENSION "/a".toList ".html".toList = none ∧
    set_content_type_from_file "/a".toList = none ∧
    rest_common_get_handler 15 empty_file_env [] "/a".toList 1
      = .undefined [.open "/a".toList] := by
  decide

/-! ## `relays_set_handler` -/

/-- C3: when the relay id parsed from the URI is `id` and the query gives a
valid status, `relays_set_handler` makes one `gpio_set_level` call on the pin of
that id (0: GPIO16, 1: GPIO17, 2: GPIO18, 3: GPIO19, pairwise distinct) with the
status as level, acknowledges and returns `ESP_OK` for `id` in 0..3, and makes
no `gpio_set_level` call, answers 404 and returns `ESP_FAIL` for every other `id`. -/
theorem relays_set_handler_dispatch (uri query : List Char) (id status : Int)
    (hid : sscanf_relay_id uri (-1) = (1, id))
    (hstatus : get_status_from_query (some query) = status)
    (hvalid : status = 0 ∨ status = 1) :
    (id = 0 → relays_set_handler uri (some query) = .returned .ESP_OK
        [.get_url_query_str, .gpio_set_level GPIO_NUM_16 status,
         .sendstr "Post control value successfully"]) ∧
    (id = 1 → relays_set_handler uri (some query) = .returned .ESP_OK
        [.get_url_query_str, .gpio_set_level GPIO_NUM_17 status,
         .sendstr "Post control value successfully"]) ∧
    (id = 2 → relays_set_handler uri (some query) = .returned .ESP_OK
        [.get_url_query_str, .gpio_set_level GPIO_NUM_18 status,
         .sendstr "Post control value successfully"]) ∧
    (id = 3 → relays_set_handler uri (some query) = .returned .ESP_OK
        [.get_url_query_str, .gpio_set_level GPIO_NUM_19 status,
         .sendstr "Post control value successfully"]) ∧
    (id < 0 ∨ 3 < id → relays_set_handler uri (some query) = .returned .ESP_FAIL
        [.get_url_query_str, .send_err .HTTPD_404_NOT_FOUND "relay not found"]) ∧
    (0 ≤ id ∧ id ≤ 3 →
      (gpio_calls (relays_set_handler uri (some query)).trace).length = 1) ∧
    (id < 0 ∨ 3 < id → gpio_calls (relays_set_handler uri (some query)).trace = []) ∧
    [GPIO_NUM_16, GPIO_NUM_17, GPIO_NUM_18, GPIO_NUM_19].Nodup := by
  have hne : status ≠ -1 := by rcases hvalid with h | h <;> rw [h] <;> decide
  have hmain : relays_set_handler uri (some query) =
      if id = 0 then .returned .ESP_OK
        [.get_url_query_str, .gpio_set_level GPIO_NUM_16 status,
         .sendstr "Post control value successfully"]
      else if id = 1 then .returned .ESP_OK
        [.get_url_query_str, .gpio_set_level GPIO_NUM_17 status,
         .sendstr "Post control value successfully"]
      else if id = 2 then .returned .ESP_OK
        [.get_url_query_str, .gpio_set_level GPIO_NUM_18 status,
         .sendstr "Post control value successfully"]
      else if id = 3 then .returned .ESP_OK
        [.get_url_query_str, .gpio_set_level GPIO_NUM_19 status,
         .sendstr "Post control value successfully"]
      else .returned .ESP_FAIL
        [.get_url_query_str, .send_err .HTTPD_404_NOT_FOUND "relay not found"] := by
    simp only [relays_set_handler, hid, hstatus, if_true, if_neg hne]
  refine ⟨?_, ?_, ?_, ?_, ?_, ?_, ?_, by decide⟩
  · intro h; rw [hmain, if_pos h]
  · intro h; subst h; rw [hmain]; rfl
  · intro h; subst h; rw [hmain]; rfl
  · intro h; subst h; rw [hmain]; rfl
  · intro h
    rw [hmain, if_neg (by omega), if_neg (by omega), if_neg (by omega), if_neg (by omega)]
  · intro h
    have h4 : id = 0 ∨ id = 1 ∨ id = 2 ∨ id = 3 := by omega
    rw [hmain]
    rcases h4 with h | h | h | h <;> subst h <;> rfl
  · intro h
    rw [hmain, if_neg (by omega), if_neg (by omega), if_neg (by omega), if_neg (by omega)]
    rfl

/-- C3 at the URI `/api/v1/relays/2/` with the query `status=1`. -/
theorem relays_set_handler_dispatch_witness :
    sscanf_relay_id "/api/v1/relays/2/".toList (-1) = (1, 2) ∧
    get_status_from_query (some "status=1".toList) = 1 ∧
    relays_set_handler "/api/v1/relays/2/".toList (some "status=1".toList)
      = .returned .ESP_OK
          [.get_url_query_str, .gpio_set_level GPIO_NUM_18 1,
           .sendstr "Post control value successfully"] :=
  ⟨by decide, by decide,
   (relays_set_handler_dispatch "/api/v1/relays/2/".toList "status=1".toList 2 1
      (by decide) (by decide) (by decide)).2.2.1 rfl⟩

/-- The function `opened_paths` distributes over concatenation. -/
theorem opened_paths_append (a b : List Event) :
    opened_paths (a ++ b) = opened_paths a ++ opened_paths b := by
  induction a with
  | nil => rfl
  | cons e es ih => cases e <;> simp [opened_paths, ih]

/-- The trace of `o.after es` is `es` followed by the trace of `o`. -/
theorem Outcome.trace_after (es : List Event) (o : Outcome) :
    (o.after es).trace = es ++ o.trace := by
  cases o <;> rfl

/-- The streaming loop opens no file. -/
theorem opened_paths_send_file (env : FileEnv) (fuel k : Nat) :
    opened_paths (send_file env fuel k).trace = [] := by
  induction fuel generalizing k with
  | zero => rfl
  | succ n ih =>
    unfold send_file
    split
    · rfl
    · split
      · split
        · rw [Outcome.trace_after, opened_paths_append, ih]; rfl
        · rfl
      · rfl

/-- The handler opens exactly the resolved path. -/
theorem opened_paths_handler (vfs : Nat) (env : FileEnv) (base_path uri : List Char)
    (fuel : Nat) (filepath : List Char)
    (h : resolve_filepath vfs base_path uri = some filepath) :
    opened_paths (rest_common_get_handler vfs env base_path uri fuel).trace = [filepath] := by
  unfold rest_common_get_handler
  rw [h]
  simp only
  split
  · split
    · rfl
    · rw [Outcome.trace_after, opened_paths_append, opened_paths_send_file]; rfl
  · rfl

/-- C8, amended: for a URI ending in `/` the only path `rest_common_get_handler`
opens is the base path followed by `/index.html` (the request path is not part
of it), provided that fits in `FILE_PATH_MAX`; for a non-empty URI not ending
in `/` it is the base path followed by the URI, provided that fits. -/
theorem rest_common_get_handler_filepath (vfs : Nat) (env : FileEnv)
    (base_path uri : List Char) (fuel : Nat) :
    (uri.getLast? = some '/' → base_path.length + 11 < FILE_PATH_MAX vfs →
      opened_paths (rest_common_get_handler vfs env base_path uri fuel).trace
        = [base_path ++ "/index.html".toList]) ∧
    (∀ last, uri.getLast? = some last → last ≠ '/' →
      base_path.length + uri.length < FILE_PATH_MAX vfs →
      opened_paths (rest_common_get_handler vfs env base_path uri fuel).trace
        = [base_path ++ uri]) := by
  constructor
  · intro hlast hfit
    apply opened_paths_handler
    unfold resolve_filepath strlcpy strlcat
    rw [hlast]
    have h1 : List.take (FILE_PATH_MAX vfs - 1) base_path = base_path :=
      List.take_of_length_le (by omega)
    have h2 : ("/index.html".toList).length = 11 := by decide
    simp only [if_true, h1]
    rw [List.take_of_length_le (by omega)]
  · intro last hlast hne hfit
    apply opened_paths_handler
    unfold resolve_filepath strlcpy strlcat
    rw [hlast]
    have h1 : List.take (FILE_PATH_MAX vfs - 1) base_path = base_path :=
      List.take_of_length_le (by omega)
    simp only [if_neg hne, h1]
    rw [List.take_of_length_le (by omega)]

/-- C8, amended, at the base path `/www` with the URIs `/docs/` and `/app.js`. -/
theorem rest_common_get_handler_filepath_witness :
    "/docs/".toList.getLast? = some '/' ∧
    "/www".toList.length + 11 < FILE_PATH_MAX 15 ∧
    opened_paths (rest_common_get_handler 15 no_file_env "/www".toList "/docs/".toList 1).trace
      = ["/www".toList ++ "/index.html".toList] ∧
    opened_paths (rest_common_get_handler 15 no_file_env "/www".toList "/app.js".toList 1).trace
      = ["/www".toList ++ "/app.js".toList] :=
  ⟨by decide, by decide,
   (rest_common_get_handler_filepath 15 no_file_env "/www".toList "/docs/".toList 1).1
     (by decide) (by decide),
   (rest_common_get_handler_filepath 15 no_file_env "/www".toList "/app.js".toList 1).2
     's' (by decide) (by decide) (by decide)⟩

/-- C8 as stated fails: for the base path `/www` and the URI `/docs/` the
handler opens `/www/index.html`, not `/www/docs/index.html`. -/
theorem rest_common_get_handler_directory_uri :
    resolve_filepath 15 "/www".toList "/docs/".toList = some "/www/index.html".toList ∧
    opened_paths (rest_common_get_handler 15 empty_file_env "/www".toList "/docs/".toList 1).trace
      = ["/www/index.html".toList] ∧
    "/www/index.html".toList ≠ "/www".toList ++ "/docs/".toList ++ "index.html".toList := by
  decide

/-- C9, amended: when `open` returns -1 for the resolved path,
`rest_common_get_handler` answers with HTTP 500 (`Failed to read existing file`)
and returns `ESP_FAIL`; it sends no chunk and makes no `read` or `close` call. -/
theorem rest_common_get_handler_open_failure (vfs : Nat) (env : FileEnv)
    (base_path uri : List Char) (fuel : Nat) (filepath : List Char)
    (hpath : resolve_filepath vfs base_path uri = some filepath)
    (hopen : env.open_ok filepath = false) :
    rest_common_get_handler vfs env base_path uri fuel
      = .returned .ESP_FAIL
          [.open filepath,
           .send_err .HTTPD_500_INTERNAL_SERVER_ERROR "Failed to read existing file"] ∧
    httpd_err_code_t.HTTPD_500_INTERNAL_SERVER_ERROR.status = 500 := by
  unfold rest_common_get_handler
  rw [hpath]
  simp [hopen, httpd_err_code_t.status]

/-- C9, amended, at the URI `/missing.html` on a file system without files. -/
theorem rest_common_get_handler_open_failure_witness :
    resolve_filepath 15 "/www".toList "/missing.html".toList
      = some "/www/missing.html".toList ∧
    no_file_env.open_ok "/www/missing.html".toList = false ∧
    rest_common_get_handler 15 no_file_env "/www".toList "/missing.html".toList 0
      = .returned .ESP_FAIL
          [.open "/www/missing.html".toList,
           .send_err .HTTPD_500_INTERNAL_SERVER_ERROR "Failed to read existing file"] :=
  ⟨by decide, by decide,
   (rest_common_get_handler_open_failure 15 no_file_env "/www".toList
      "/missing.html".toList 0 "/www/missing.html".toList (by decide) (by decide)).1⟩

/-- C9 as stated fails: for a file that does not exist the error response of
`rest_common_get_handler` has status 500, not 404. -/
theorem rest_common_get_handler_missing_file_status :
    no_file_env.open_ok "/www/missing.html".toList = false ∧
    error_statuses
      (rest_common_get_handler 15 no_file_env "/www".toList "/missing.html".toList 1).trace
      = [500] ∧
    (500 : Nat) ≠ 404 := by
  decide

/-! ## Streaming in `rest_common_get_handler` -/

/-- For a path of five or more characters every extension test stays inside
the path, and a content type is selected. -/
theorem set_content_type_from_file_defined (filepath : List Char)
    (h : 5 ≤ filepath.length) : ∃ type, set_content_type_from_file filepath = some type := by
  have h5 : ".html".toList.length = 5 := by decide
  have h3 : ".js".toList.length = 3 := by decide
  have h4a : ".css".toList.length = 4 := by decide
  have h4b : ".png".toList.length = 4 := by decide
  have h4c : ".ico".toList.length = 4 := by decide
  have h4d : ".svg".toList.length = 4 := by decide
  unfold set_content_type_from_file CHECK_FILE_EXTENSION
  have n5 : ¬ filepath.length < 5 := by omega
  have n4 : ¬ filepath.length < 4 := by omega
  have n3 : ¬ filepath.length < 3 := by omega
  simp only [h5, h3, h4a, h4b, h4c, h4d, if_neg n5, if_neg n4, if_neg n3]
  split
  · simp_all
  · exact ⟨_, rfl⟩
  · split
    · simp_all
    · exact ⟨_, rfl⟩
    · split
      · simp_all
      · exact ⟨_, rfl⟩
      · split
        · simp_all
        · exact ⟨_, rfl⟩
        · split
          · simp_all
          · exact ⟨_, rfl⟩
          · split
            · simp_all
            · exact ⟨_, rfl⟩
            · exact ⟨_, rfl⟩

/-- The loop of `rest_common_get_handler` on storage that serves `content`,
started after `k` reads: it ends within as many iterations as bytes are left,
plus one, and its data chunks are the unread part of `content`. -/
theorem send_file_serves (env : FileEnv) (content : List Nat)
    (hserve : Serves content env.read) (hsend : ∀ k, env.send_chunk k = true) :
    ∀ n k, content.length - bytes_read env.read k ≤ n →
      ∃ pre, (∀ fuel, n < fuel →
          send_file env fuel k = .returned .ESP_OK (pre ++ [.close, .send_chunk_end])) ∧
        (data_chunks pre).flatten = content.drop (bytes_read env.read k) ∧
        (∀ c ∈ data_chunks pre, 0 < c.length ∧ c.length ≤ SCRATCH_BUFSIZE) ∧
        (∀ e ∈ pre, e.is_read_or_data = true) := by
  intro n
  induction n with
  | zero =>
    intro k hk
    obtain ⟨data, hread, _, _, hend⟩ := hserve k
    have hge : content.length ≤ bytes_read env.read k := by omega
    have hnil : data = [] := hend hge
    subst hnil
    refine ⟨[.read SCRATCH_BUFSIZE 0], ?_, ?_, ?_, ?_⟩
    · intro fuel hfuel
      obtain ⟨f, rfl⟩ : ∃ f, fuel = f + 1 := ⟨fuel - 1, by omega⟩
      simp [send_file, hread]
    · simp [data_chunks, List.drop_eq_nil_of_le hge]
    · simp [data_chunks]
    · simp [Event.is_read_or_data]
  | succ n ih =>
    intro k hk
    obtain ⟨data, hread, htake, hsize, hend⟩ := hserve k
    by_cases hleft : bytes_read env.read k < content.length
    · obtain ⟨h1, h2⟩ := hsize hleft
      have hnext : bytes_read env.read (k + 1) = bytes_read env.read k + data.length := by
        simp [bytes_read, hread]
      have hle : data.length ≤ content.length - bytes_read env.read k := by
        have := congrArg List.length htake
        rw [List.length_take, List.length_drop] at this
        omega
      obtain ⟨pre, hrun, hcat, hchunks, hev⟩ := ih (k + 1) (by omega)
      refine ⟨.read SCRATCH_BUFSIZE data.length :: .send_chunk data :: pre, ?_, ?_, ?_, ?_⟩
      · intro fuel hfuel
        obtain ⟨f, rfl⟩ : ∃ f, fuel = f + 1 := ⟨fuel - 1, by omega⟩
        have hpos : 0 < data.length := h1
        simp only [send_file, hread, hpos, if_true, hsend k]
        rw [hrun f (by omega)]
        simp [Outcome.after]
      · simp only [data_chunks, List.flatten_cons]
        rw [hcat, hnext, ← List.drop_drop]
        have hsplit := List.take_append_drop data.length
          (List.drop (bytes_read env.read k) content)
        rw [← htake] at hsplit
        exact hsplit
      · intro c hc
        simp only [data_chunks, List.mem_cons] at hc
        rcases hc with rfl | hc
        · exact ⟨h1, h2⟩
        · exact hchunks c hc
      · intro e he
        simp only [List.mem_cons] at he
        rcases he with rfl | rfl | he
        · rfl
        · rfl
        · exact hev e he
    · have hge : content.length ≤ bytes_read env.read k := by omega
      have hnil : data = [] := hend hge
      subst hnil
      refine ⟨[.read SCRATCH_BUFSIZE 0], ?_, ?_, ?_, ?_⟩
      · intro fuel hfuel
        obtain ⟨f, rfl⟩ : ∃ f, fuel = f + 1 := ⟨fuel - 1, by omega⟩
        simp [send_file, hread]
      · simp [data_chunks, List.drop_eq_nil_of_le hge]
      · simp [data_chunks]
      · simp [Event.is_read_or_data]

/-- C6: when the resolved path is opened (and has the five characters the
content-type lookup needs), the storage serves `content` with reads of 1 to
`SCRATCH_BUFSIZE` bytes and then 0, and every chunk is accepted, then
`rest_common_get_handler` returns `ESP_OK` (within `content.length + 1`
iterations); between `set_type` and `close` it only reads and sends data
chunks, each non-empty and at most `SCRATCH_BUFSIZE` bytes long, whose
concatenation is `content`; and it ends with one zero-length chunk. -/
theorem rest_common_get_handler_streams (vfs : Nat) (env : FileEnv)
    (base_path uri filepath : List Char) (content : List Nat)
    (hpath : resolve_filepath vfs base_path uri = some filepath)
    (hlen : 5 ≤ filepath.length)
    (hopen : env.open_ok filepath = true)
    (hserve : Serves content env.read)
    (hsend : ∀ k, env.send_chunk k = true) :
    ∃ type pre,
      (∀ fuel, content.length < fuel →
        rest_common_get_handler vfs env base_path uri fuel
          = .returned .ESP_OK
              ([.open filepath, .set_type type] ++ pre ++ [.close, .send_chunk_end])) ∧
      (data_chunks pre).flatten = content ∧
      (∀ c ∈ data_chunks pre, 0 < c.length ∧ c.length ≤ SCRATCH_BUFSIZE) ∧
      (∀ e ∈ pre, e.is_read_or_data = true) := by
  obtain ⟨type, htype⟩ := set_content_type_from_file_defined filepath hlen
  obtain ⟨pre, hrun, hcat, hchunks, hev⟩ :=
    send_file_serves env content hserve hsend content.length 0 (by simp [bytes_read])
  refine ⟨type, pre, ?_, ?_, hchunks, hev⟩
  · intro fuel hfuel
    unfold rest_common_get_handler
    rw [hpath]
    simp only [hopen, if_true, htype]
    rw [hrun fuel hfuel]
    simp [Outcome.after]
  · simpa [bytes_read] using hcat

/-- After its first call the storage of `three_byte_file_env` has delivered
three bytes. -/
theorem three_byte_file_env_bytes_read (k : Nat) :
    bytes_read three_byte_file_env.read (k + 1) = 3 := by
  induction k with
  | zero => rfl
  | succ n ih =>
    rw [bytes_read, ih]
    rfl

/-- The storage of `three_byte_file_env` serves the bytes 1, 2, 3. -/
theorem three_byte_file_env_serves : Serves [1, 2, 3] three_byte_file_env.read := by
  intro k
  cases k with
  | zero => exact ⟨[1, 2, 3], rfl, rfl, fun _ => by decide, fun h => absurd h (by decide)⟩
  | succ n =>
    refine ⟨[], rfl, ?_, ?_, fun _ => rfl⟩
    · simp
    · rw [three_byte_file_env_bytes_read]
      intro h
      exact absurd h (by decide)

/-- C6 for `/index.html` under `/www` on a file of three bytes. -/
theorem rest_common_get_handler_streams_witness :
    resolve_filepath 15 "/www".toList "/index.html".toList = some "/www/index.html".toList ∧
    ∃ type pre,
      (∀ fuel, [1, 2, 3].length < fuel →
        rest_common_get_handler 15 three_byte_file_env "/www".toList "/index.html".toList fuel
          = .returned .ESP_OK
              ([.open "/www/index.html".toList, .set_type type] ++ pre
                ++ [.close, .send_chunk_end])) ∧
      (data_chunks pre).flatten = [1, 2, 3] ∧
      (∀ c ∈ data_chunks pre, 0 < c.length ∧ c.length ≤ SCRATCH_BUFSIZE) ∧
      (∀ e ∈ pre, e.is_read_or_data = true) :=
  ⟨by decide,
   rest_common_get_handler_streams 15 three_byte_file_env "/www".toList
     "/index.html".toList "/www/index.html".toList [1, 2, 3] (by decide) (by decide) rfl
     three_byte_file_env_serves (fun _ => rfl)⟩

/-! ## Exit paths of `rest_common_get_handler` -/

/-- An outcome with events put in front returned exactly when the outcome
itself returned. -/
theorem Outcome.after_eq_returned (es : List Event) (o : Outcome) (r : esp_err_t)
    (t : List Event) (h : o.after es = .returned r t) :
    ∃ t0, o = .returned r t0 ∧ t = es ++ t0 := by
  cases o with
  | returned r0 t0 =>
    simp only [Outcome.after, Outcome.returned.injEq] at h
    exact ⟨t0, by rw [h.1], h.2.symm⟩
  | undefined t0 => simp [Outcome.after] at h
  | out_of_fuel t0 => simp [Outcome.after] at h

/-- Whenever the streaming loop returns, it has closed the descriptor once and
sent one zero-length chunk. -/
theorem send_file_returned (env : FileEnv) :
    ∀ fuel k r t, send_file env fuel k = .returned r t →
      t.count .close = 1 ∧ t.count .send_chunk_end = 1 := by
  intro fuel
  induction fuel with
  | zero => intro k r t h; simp [send_file] at h
  | succ n ih =>
    intro k r t h
    unfold send_file at h
    split at h
    · simp only [Outcome.returned.injEq] at h
      rw [← h.2]
      decide
    · split at h
      · split at h
        · obtain ⟨t0, h0, rfl⟩ := Outcome.after_eq_returned _ _ _ _ h
          have := ih (k + 1) r t0 h0
          rw [List.count_append, List.count_append, this.1, this.2]
          simp [List.count_cons]
        · simp only [Outcome.returned.injEq] at h
          rw [← h.2]
          simp [List.count_cons]
      · simp only [Outcome.returned.injEq] at h
        rw [← h.2]
        decide

/-- The streaming loop returns once a read fails or yields nothing, or a
chunk is refused. -/
theorem send_file_stops (env : FileEnv) :
    ∀ m j fuel,
      (env.read (j + m) = none ∨ env.read (j + m) = some [] ∨ env.send_chunk (j + m) = false) →
      m < fuel → ∃ r t, send_file env fuel j = .returned r t := by
  intro m
  induction m with
  | zero =>
    intro j fuel hstop hfuel
    obtain ⟨f, rfl⟩ : ∃ f, fuel = f + 1 := ⟨fuel - 1, by omega⟩
    rw [Nat.add_zero] at hstop
    unfold send_file
    rcases hstop with h | h | h
    · rw [h]; exact ⟨_, _, rfl⟩
    · rw [h]; exact ⟨_, _, rfl⟩
    · rw [h]
      split
      · exact ⟨_, _, rfl⟩
      · split
        · simp only [Bool.false_eq_true, if_false]; exact ⟨_, _, rfl⟩
        · exact ⟨_, _, rfl⟩
  | succ m ih =>
    intro j fuel hstop hfuel
    obtain ⟨f, rfl⟩ : ∃ f, fuel = f + 1 := ⟨fuel - 1, by omega⟩
    unfold send_file
    split
    · exact ⟨_, _, rfl⟩
    · split
      · split
        · have hstop2 : env.read (j + 1 + m) = none ∨ env.read (j + 1 + m) = some [] ∨
              env.send_chunk (j + 1 + m) = false := by
            have e : j + 1 + m = j + (m + 1) := by omega
            rw [e]; exact hstop
          obtain ⟨r, t, h⟩ := ih (j + 1) f hstop2 (by omega)
          rw [h]
          exact ⟨_, _, rfl⟩
        · exact ⟨_, _, rfl⟩
      · exact ⟨_, _, rfl⟩

/-- When the chunk of iteration `j + m` is the first one refused, the loop
started at iteration `j` ends right after that chunk: close, zero-length
chunk, 500, `ESP_FAIL`. -/
theorem send_file_send_failure (env : FileEnv) :
    ∀ m j fuel,
      (∀ i, j ≤ i → i ≤ j + m → ∃ data, env.read i = some data ∧ data ≠ []) →
      (∀ i, j ≤ i → i < j + m → env.send_chunk i = true) →
      env.send_chunk (j + m) = false → m < fuel →
      ∃ pre data, send_file env fuel j = .returned .ESP_FAIL
          (pre ++ [.send_chunk data, .close, .send_chunk_end,
                   .send_err .HTTPD_500_INTERNAL_SERVER_ERROR "Failed to send file"]) ∧
        env.read (j + m) = some data ∧ (∀ e ∈ pre, e.is_read_or_data = true) := by
  intro m
  induction m with
  | zero =>
    intro j fuel hread hsend hfail hfuel
    obtain ⟨f, rfl⟩ : ∃ f, fuel = f + 1 := ⟨fuel - 1, by omega⟩
    obtain ⟨data, hd, hne⟩ := hread j (by omega) (by omega)
    have hpos : 0 < data.length := List.length_pos.mpr hne
    rw [Nat.add_zero] at hfail
    refine ⟨[.read SCRATCH_BUFSIZE data.length], data, ?_, hd, ?_⟩
    · simp [send_file, hd, hpos, hfail]
    · simp [Event.is_read_or_data]
  | succ m ih =>
    intro j fuel hread hsend hfail hfuel
    obtain ⟨f, rfl⟩ : ∃ f, fuel = f + 1 := ⟨fuel - 1, by omega⟩
    obtain ⟨data, hd, hne⟩ := hread j (by omega) (by omega)
    have hpos : 0 < data.length := List.length_pos.mpr hne
    have hok : env.send_chunk j = true := hsend j (by omega) (by omega)
    have e : j + 1 + m = j + (m + 1) := by omega
    obtain ⟨pre, last, hrun, hlast, hev⟩ := ih (j + 1) f
      (fun i h1 h2 => hread i (by omega) (by omega))
      (fun i h1 h2 => hsend i (by omega) (by omega))
      (by rw [e]; exact hfail) (by omega)
    refine ⟨.read SCRATCH_BUFSIZE data.length :: .send_chunk data :: pre, last, ?_, ?_, ?_⟩
    · simp [send_file, hd, hpos, hok, hrun, Outcome.after]
    · rw [← e]; exact hlast
    · intro ev hev2
      simp only [List.mem_cons] at hev2
      rcases hev2 with rfl | rfl | hev2
      · rfl
      · rfl
      · exact hev ev hev2

/-- Reads and data chunks are neither a close, nor a zero-length chunk, nor an
error response. -/
theorem read_or_data_counts (pre : List Event)
    (h : ∀ e ∈ pre, e.is_read_or_data = true) :
    pre.count .close = 0 ∧ pre.count .send_chunk_end = 0 ∧ error_statuses pre = [] := by
  induction pre with
  | nil => exact ⟨rfl, rfl, rfl⟩
  | cons e es ih =>
    have he := h e (List.mem_cons_self e es)
    have ih2 := ih (fun x hx => h x (List.mem_cons_of_mem e hx))
    cases e <;> simp_all [Event.is_read_or_data, error_statuses, List.count_cons]

/-- The function `error_statuses` distributes over concatenation. -/
theorem error_statuses_append (a b : List Event) :
    error_statuses (a ++ b) = error_statuses a ++ error_statuses b := by
  induction a with
  | nil => rfl
  | cons e es ih => cases e <;> simp [error_statuses, ih]

/-- With the file opened and the content type selected, the handler is the
streaming loop after the two calls made so far. -/
theorem rest_common_get_handler_opened (vfs : Nat) (env : FileEnv)
    (base_path uri filepath : List Char) (type : String) (fuel : Nat)
    (hpath : resolve_filepath vfs base_path uri = some filepath)
    (htype : set_content_type_from_file filepath = some type)
    (hopen : env.open_ok filepath = true) :
    rest_common_get_handler vfs env base_path uri fuel
      = (send_file env fuel 0).after [.open filepath, .set_type type] := by
  unfold rest_common_get_handler
  rw [hpath]
  simp only [hopen, if_true, htype]

/-- C7: once `rest_common_get_handler` has opened the file (a path of five or
more characters), (1) every run that returns has closed the descriptor exactly
once; (2) the handler does return as soon as a read fails, a read yields no
bytes or a chunk is refused; (3) when the `k`-th data chunk is the first one
refused, no read and no data chunk follows it: the descriptor is closed, one
zero-length chunk is sent, one 500 error is reported and the handler returns
`ESP_FAIL`. -/
theorem rest_common_get_handler_exit_paths (vfs : Nat) (env : FileEnv)
    (base_path uri filepath : List Char)
    (hpath : resolve_filepath vfs base_path uri = some filepath)
    (hlen : 5 ≤ filepath.length)
    (hopen : env.open_ok filepath = true) :
    (∀ fuel r t, rest_common_get_handler vfs env base_path uri fuel = .returned r t →
      t.count .close = 1) ∧
    (∀ k, (env.read k = none ∨ env.read k = some [] ∨ env.send_chunk k = false) →
      ∀ fuel, k < fuel →
        ∃ r t, rest_common_get_handler vfs env base_path uri fuel = .returned r t ∧
          t.count .close = 1) ∧
    (∀ k, (∀ i, i ≤ k → ∃ data, env.read i = some data ∧ data ≠ []) →
      (∀ i, i < k → env.send_chunk i = true) → env.send_chunk k = false →
      ∀ fuel, k < fuel →
        ∃ type pre data t,
          t = [.open filepath, .set_type type] ++ pre ++
                [.send_chunk data, .close, .send_chunk_end,
                 .send_err .HTTPD_500_INTERNAL_SERVER_ERROR "Failed to send file"] ∧
          rest_common_get_handler vfs env base_path uri fuel = .returned .ESP_FAIL t ∧
          env.read k = some data ∧
          (∀ e ∈ pre, e.is_read_or_data = true) ∧
          t.count .close = 1 ∧ t.count .send_chunk_end = 1 ∧ error_statuses t = [500]) := by
  obtain ⟨type, htype⟩ := set_content_type_from_file_defined filepath hlen
  have hrun := fun fuel =>
    rest_common_get_handler_opened vfs env base_path uri filepath type fuel hpath htype hopen
  have hclose : ∀ fuel r t,
      rest_common_get_handler vfs env base_path uri fuel = .returned r t →
      t.count .close = 1 := by
    intro fuel r t h
    rw [hrun fuel] at h
    obtain ⟨t0, h0, rfl⟩ := Outcome.after_eq_returned _ _ _ _ h
    rw [List.count_append, (send_file_returned env fuel 0 r t0 h0).1]
    simp [List.count_cons]
  refine ⟨hclose, ?_, ?_⟩
  · intro k hstop fuel hfuel
    obtain ⟨r, t0, h0⟩ := send_file_stops env k 0 fuel (by rw [Nat.zero_add]; exact hstop) hfuel
    have hret : rest_common_get_handler vfs env base_path uri fuel
        = .returned r ([.open filepath, .set_type type] ++ t0) := by
      rw [hrun fuel, h0]; rfl
    exact ⟨r, _, hret, hclose fuel r _ hret⟩
  · intro k hread hsend hfail fuel hfuel
    obtain ⟨pre, data, h0, hdata, hev⟩ := send_file_send_failure env k 0 fuel
      (fun i _ h2 => hread i (by omega)) (fun i _ h2 => hsend i (by omega))
      (by rw [Nat.zero_add]; exact hfail) hfuel
    rw [Nat.zero_add] at hdata
    have hret : rest_common_get_handler vfs env base_path uri fuel
        = .returned .ESP_FAIL ([.open filepath, .set_type type] ++ pre ++
            [.send_chunk data, .close, .send_chunk_end,
             .send_err .HTTPD_500_INTERNAL_SERVER_ERROR "Failed to send file"]) := by
      rw [hrun fuel, h0]
      simp [Outcome.after]
    obtain ⟨c1, c2, c3⟩ := read_or_data_counts pre hev
    refine ⟨type, pre, data, _, rfl, hret, hdata, hev, hclose fuel _ _ hret, ?_, ?_⟩
    · rw [List.count_append, List.count_append, c2]
      simp [List.count_cons]
    · rw [error_statuses_append, error_statuses_append, c3]
      simp [error_statuses, httpd_err_code_t.status]

/-- C7 for `/index.html` under `/www` when the first chunk is refused. -/
theorem rest_common_get_handler_exit_paths_witness :
    resolve_filepath 15 "/www".toList "/index.html".toList = some "/www/index.html".toList ∧
    send_failure_env.open_ok "/www/index.html".toList = true ∧
    send_failure_env.send_chunk 0 = false ∧
    ∃ type pre data t,
      t = [.open "/www/index.html".toList, .set_type type] ++ pre ++
            [.send_chunk data, .close, .send_chunk_end,
             .send_err .HTTPD_500_INTERNAL_SERVER_ERROR "Failed to send file"] ∧
      rest_common_get_handler 15 send_failure_env "/www".toList "/index.html".toList 1
        = .returned .ESP_FAIL t ∧
      send_failure_env.read 0 = some data ∧
      (∀ e ∈ pre, e.is_read_or_data = true) ∧
      t.count .close = 1 ∧ t.count .send_chunk_end = 1 ∧ error_statuses t = [500] :=
  ⟨by decide, rfl, rfl,
   (rest_common_get_handler_exit_paths 15 send_failure_env "/www".toList
      "/index.html".toList "/www/index.html".toList (by decide) (by decide) rfl).2.2 0
      (fun _ _ => ⟨[1, 2, 3], rfl, by decide⟩) (fun i h => absurd h (Nat.not_lt_zero i)) rfl
      1 (by decide)⟩

/-! ## Supporting facts on the bounded reader and the content-type table -/

/-- A declared length of 2^31 is negative as an `int`: it passes the length
test, the loop is skipped, and the terminator is stored before the buffer. -/
theorem light_brightness_post_handler_negative_length :
    int_of_size_t negative_length_env.content_len = -2147483648 ∧
    light_brightness_post_handler negative_length_env 1 = .undefined [] := by
  decide

/-- The content-type table on paths of five or more characters; the comparison
ignores case. -/
theorem set_content_type_from_file_table :
    set_content_type_from_file "/www/index.html".toList = some "text/html" ∧
    set_content_type_from_file "/www/app.js".toList = some "application/javascript" ∧
    set_content_type_from_file "/www/site.css".toList = some "text/css" ∧
    set_content_type_from_file "/www/logo.png".toList = some "image/png" ∧
    set_content_type_from_file "/www/favicon.ico".toList = some "image/x-icon" ∧
    set_content_type_from_file "/www/icon.svg".toList = some "text/xml" ∧
    set_content_type_from_file "/www/notes.txt".toList = some "text/plain" ∧
    set_content_type_from_file "/www/README".toList = some "text/plain" ∧
    set_content_type_from_file "/www/INDEX.HTML".toList = some "text/html" := by
  decide

/-- When the id parsed but the query string is absent or its status is
invalid, `relays_set_handler` answers 400 and returns `ESP_FAIL` without a
`gpio_set_level` call. -/
theorem relays_set_handler_invalid_status (uri : List Char)
    (query_str : Option (List Char)) (id : Int)
    (hid : sscanf_relay_id uri (-1) = (1, id))
    (hstatus : query_str = none ∨
      ∃ q, query_str = some q ∧ get_status_from_query (some q) = -1) :
    relays_set_handler uri query_str
      = .returned .ESP_FAIL
          [.get_url_query_str,
           .send_err .HTTPD_400_BAD_REQUEST
             "relays_set_handler: missing or invalid status parameter"] := by
  unfold relays_set_handler
  rcases hstatus with h | ⟨q, h, hq⟩
  · simp [hid, h]
  · simp [hid, h, hq]

end RestServer
